import Mathlib

/-!
Shallow embedding of `src/app.py`, a small Flask application that accepts a
free-text note over HTTP and appends it as one paragraph block to a fixed
Notion page via the Notion HTTP API.

Modelling conventions:
* Environment values read with `os.environ.get(name)` are `Option String`
  (Python returns `None` when absent); a read with a default collapses to
  `String` via `Option.getD`.
* Python truthiness of an optional string (`not x`) is: `None` or the empty
  string is falsy.
* Python `str.strip()` is modelled over the character list, stripping
  whitespace characters (space, tab, CR, LF) from both ends.
* The single outbound `requests.patch` call is modelled by passing in the
  outcome that call would have (`CallOutcome`); the handler returns the
  caller-visible response paired with `some` of the outbound request it
  issued, or `none` when no outbound call is made on that path.
* A JSON `content` field that is present but not a string makes Python's
  `.strip()` raise `AttributeError`, caught only by the handler's generic
  `except Exception`; extraction is therefore `Except`-valued.
-/

namespace NotionAgent

/-- `NOTION_VERSION = "2022-06-28"` from `src/app.py`. -/
def NOTION_VERSION : String := "2022-06-28"

/-- `PAGE_ID = os.environ.get('NOTION_PAGE_ID', '2020b70967ed803ba28fdc5ed49984a0')`:
the configured page identifier, falling back to a hard-coded default when the
environment variable is absent. -/
def PAGE_ID (notionPageIdEnv : Option String) : String :=
  notionPageIdEnv.getD "2020b70967ed803ba28fdc5ed49984a0"

/-- Python `str.strip()`: remove whitespace from both ends of the string. -/
def pyStrip (s : String) : String :=
  String.mk (((s.data.dropWhile Char.isWhitespace).reverse.dropWhile Char.isWhitespace).reverse)

/-- Python slice `s[a:b]` on a string. -/
def pySlice (s : String) (a b : Nat) : String :=
  String.mk ((s.data.take b).drop a)

/-- Python slice `s[a:]` on a string. -/
def pySliceFrom (s : String) (a : Nat) : String :=
  String.mk (s.data.drop a)

/-- `format_uuid` from `src/app.py`: if the raw identifier has exactly 32
characters, re-segment it as `raw[0:8]-raw[8:12]-raw[12:16]-raw[16:20]-raw[20:]`;
otherwise return `None`. -/
def format_uuid (raw : String) : Option String :=
  if raw.length ≠ 32 then none
  else some (pySlice raw 0 8 ++ "-" ++ pySlice raw 8 12 ++ "-" ++ pySlice raw 12 16 ++ "-" ++
    pySlice raw 16 20 ++ "-" ++ pySliceFrom raw 20)

/-- `validate_notion_config` from `src/app.py`, parametrized by the two
module-level configuration values it reads: `NOTION_TOKEN` (an optional string,
read without a default) and the resolved `PAGE_ID` string. Python's
`if not NOTION_TOKEN` is true when the value is `None` or empty; `if not PAGE_ID`
is true when the string is empty. -/
def validate_notion_config (notionToken : Option String) (pageId : String) : Bool × String :=
  if notionToken = none ∨ notionToken = some "" then
    (false, "NOTION_TOKEN environment variable is required")
  else if pageId = "" then
    (false, "NOTION_PAGE_ID environment variable is required")
  else
    (true, "Configuration valid")

/-- A request's `content` field as the handler sees it: absent, a string value,
or present with a non-string JSON value (number, null, ...). Form fields are
always strings, so `nonStr` can only arise from a JSON body. -/
inductive ContentField where
  | absent
  | strVal (s : String)
  | nonStr
deriving DecidableEq

/-- `request.json.get('content', '')` / `request.form.get('content', '')`
followed by `.strip()`'s receiver check: an absent field defaults to the empty
string; a present non-string value makes `.strip()` raise `AttributeError`,
modelled as `Except.error`. -/
def get_content : ContentField → Except Unit String
  | .absent => .ok ""
  | .strVal s => .ok s
  | .nonStr => .error ()

/-- Outcome of the single `requests.patch` call: an HTTP response from the
external service, or one of the exception classes the handler catches
(`requests.exceptions.Timeout`, `requests.exceptions.ConnectionError`, or any
other `Exception`). -/
inductive CallOutcome where
  | response (status : Nat) (body : String)
  | timeout
  | connectionError
  | otherError (detail : String)
deriving DecidableEq

/-- Outcomes the handler reports to the caller as failures (everything except
an HTTP 200 response). -/
def CallOutcome.isFailure : CallOutcome → Bool
  | .response status _ => status != 200
  | _ => true

/-- The `"text"` object of a rich-text run in the outbound payload. -/
structure TextData where
  content : String
deriving DecidableEq

/-- One rich-text run of the outbound payload. -/
structure RichText where
  type : String
  text : TextData
deriving DecidableEq

/-- The `"paragraph"` object of an outbound block. -/
structure ParagraphData where
  rich_text : List RichText
deriving DecidableEq

/-- One block of the outbound payload. -/
structure Block where
  object : String
  type : String
  paragraph : ParagraphData
deriving DecidableEq

/-- The JSON body sent to the Notion API (`data` in `src/app.py`). -/
structure NotionPayload where
  children : List Block
deriving DecidableEq

/-- The single outbound HTTP call `requests.patch(url, headers=headers,
json=data, timeout=10)` together with its headers and payload. -/
structure OutboundRequest where
  method : String
  url : String
  authorization : String
  contentType : String
  notionVersion : String
  payload : NotionPayload
  timeoutSeconds : Nat
deriving DecidableEq

/-- A caller-visible response: a JSON body with an HTTP status code and
`status`/`message` fields, or a redirect to the index page carrying a flash
message with a category. -/
inductive Resp where
  | json (httpStatus : Nat) (status : String) (message : String)
  | redirect (flashCategory : String) (flashMessage : String)
deriving DecidableEq

/-- Whether a response is a redirect (as opposed to a JSON body). -/
def Resp.isRedirect : Resp → Bool
  | .redirect _ _ => true
  | _ => false

/-- The response of the handler's generic `except Exception` branch. -/
def unexpectedErrorResp (isJsonReq : Bool) : Resp :=
  if isJsonReq then .json 500 "error" "An unexpected error occurred"
  else .redirect "error" ("Error: " ++ "An unexpected error occurred")

/-- The tail of `write_note`: map the outcome of the `requests.patch` call to
the caller-visible response, branching on `request.is_json` exactly as the
source does (lines 97-140 of `src/app.py`). -/
def handleOutcome (isJsonReq : Bool) : CallOutcome → Resp
  | .response status _body =>
    if status = 200 then
      if isJsonReq then .json 200 "success" "Note written successfully"
      else .redirect "success" "Note written successfully!"
    else
      if isJsonReq then
        .json status "error" ("Failed to write note to Notion: " ++ toString status)
      else
        .redirect "error" ("Error: " ++ ("Failed to write note to Notion: " ++ toString status))
  | .timeout =>
    if isJsonReq then .json 408 "error" "Request timeout - Notion API did not respond in time"
    else .redirect "error" ("Error: " ++ "Request timeout - Notion API did not respond in time")
  | .connectionError =>
    if isJsonReq then .json 503 "error" "Connection error - Unable to reach Notion API"
    else .redirect "error" ("Error: " ++ "Connection error - Unable to reach Notion API")
  | .otherError _ => unexpectedErrorResp isJsonReq

/-- `write_note` from `src/app.py`, parametrized by the two environment values,
the request mode (`request.is_json`), the request's `content` field, and the
outcome the single outbound call would have. Returns the caller-visible
response paired with the outbound request issued (`none` when the handler
answers without calling the external API). -/
def write_note (notionToken notionPageIdEnv : Option String) (isJsonReq : Bool)
    (contentField : ContentField) (outcome : CallOutcome) :
    Resp × Option OutboundRequest :=
  let pageId := PAGE_ID notionPageIdEnv
  let cfg := validate_notion_config notionToken pageId
  if cfg.1 = false then
    (.json 400 "error" cfg.2, none)
  else
    match get_content contentField with
    | .error _ => (unexpectedErrorResp isJsonReq, none)
    | .ok rawContent =>
      let content := pyStrip rawContent
      if content = "" then
        (.json 400 "error" "Content cannot be empty", none)
      else
        match format_uuid pageId with
        | none => (.json 400 "error" "Invalid PAGE_ID format", none)
        | some blockId =>
          let run : RichText := { type := "text", text := { content := content } }
          let block : Block :=
            { object := "block", type := "paragraph", paragraph := { rich_text := [run] } }
          let req : OutboundRequest := {
            method := "PATCH"
            url := "https://api.notion.com/v1/blocks/" ++ blockId ++ "/children"
            authorization := "Bearer " ++ notionToken.getD ""
            contentType := "application/json"
            notionVersion := NOTION_VERSION
            payload := { children := [block] }
            timeoutSeconds := 10 }
          (handleOutcome isJsonReq outcome, some req)

/-- The JSON object returned by `health_check` in `src/app.py`; `jsonify`
responds with HTTP status 200 by default. -/
structure HealthResponse where
  httpStatus : Nat
  status : String
  notion_configured : Bool
  message : String
deriving DecidableEq

/-- `health_check` from `src/app.py`: report transport-level health plus the
configuration validator's result; it performs no outbound call (second
component always `none`). -/
def health_check (notionToken notionPageIdEnv : Option String) :
    HealthResponse × Option OutboundRequest :=
  let cfg := validate_notion_config notionToken (PAGE_ID notionPageIdEnv)
  ({ httpStatus := 200, status := "healthy", notion_configured := cfg.1,
     message := cfg.2 }, none)

/-- Position at which original character `i` of a 32-character identifier
appears in the hyphenated form: it shifts right by one for each hyphen
inserted before it (hyphens occupy positions 8, 13, 18, 23). -/
def hyphenPos (i : Nat) : Nat :=
  if i < 8 then i
  else if i < 12 then i + 1
  else if i < 16 then i + 2
  else if i < 20 then i + 3
  else i + 4

/-- C6: the configuration validator is a pure function of the two configuration
values: it names the credential when the credential is missing (also when both
values are missing), names the page identifier when only the identifier is
missing, reports valid when both are present, and repeated calls on the same
values return the same result. -/
theorem validate_notion_config_spec (notionToken : Option String) (pageId : String) :
    ((notionToken = none ∨ notionToken = some "") →
      validate_notion_config notionToken pageId =
        (false, "NOTION_TOKEN environment variable is required")) ∧
    (¬(notionToken = none ∨ notionToken = some "") → pageId = "" →
      validate_notion_config notionToken pageId =
        (false, "NOTION_PAGE_ID environment variable is required")) ∧
    (¬(notionToken = none ∨ notionToken = some "") → pageId ≠ "" →
      validate_notion_config notionToken pageId = (true, "Configuration valid")) ∧
    validate_notion_config notionToken pageId = validate_notion_config notionToken pageId := by
  refine ⟨fun h => by simp [validate_notion_config, h],
    fun h hp => by simp [validate_notion_config, h, hp],
    fun h hp => by simp [validate_notion_config, h, hp], rfl⟩

/-- Witness for `validate_notion_config_spec`: the three cases at concrete
configuration values (both missing, identifier missing, both present). -/
theorem validate_notion_config_spec_witness :
    validate_notion_config none "" =
      (false, "NOTION_TOKEN environment variable is required") ∧
    validate_notion_config (some "tok") "" =
      (false, "NOTION_PAGE_ID environment variable is required") ∧
    validate_notion_config (some "tok") "page" = (true, "Configuration valid") :=
  ⟨(validate_notion_config_spec none "").1 (Or.inl rfl),
   (validate_notion_config_spec (some "tok") "").2.1 (by decide) rfl,
   (validate_notion_config_spec (some "tok") "page").2.2.1 (by decide) (by decide)⟩

/-- C8: for every configuration state, the health endpoint responds HTTP 200
with status `"healthy"`, the configuration validator's flag and message, and
makes no outbound call. -/
theorem health_check_spec (notionToken notionPageIdEnv : Option String) :
    health_check notionToken notionPageIdEnv =
      ({ httpStatus := 200, status := "healthy",
         notion_configured := (validate_notion_config notionToken (PAGE_ID notionPageIdEnv)).1,
         message := (validate_notion_config notionToken (PAGE_ID notionPageIdEnv)).2 },
       none) := rfl

/-- C5: with valid configuration and content that is empty after trimming
(absent content extracts to the empty string), the handler answers HTTP 400
with the empty-content message and makes no outbound call. -/
theorem write_note_empty_content (notionToken notionPageIdEnv : Option String)
    (isJsonReq : Bool) (cf : ContentField) (outcome : CallOutcome) (rawContent : String)
    (hvalid : (validate_notion_config notionToken (PAGE_ID notionPageIdEnv)).1 = true)
    (hget : get_content cf = .ok rawContent)
    (hempty : pyStrip rawContent = "") :
    write_note notionToken notionPageIdEnv isJsonReq cf outcome =
      (.json 400 "error" "Content cannot be empty", none) := by
  simp [write_note, hvalid, hget, hempty]

/-- Witness for `write_note_empty_content`: a whitespace-only form submission
with a valid configuration. -/
theorem write_note_empty_content_witness :
    write_note (some "tok") (some "2020b70967ed803ba28fdc5ed49984a0") false
      (.strVal "   ") .timeout = (.json 400 "error" "Content cannot be empty", none) :=
  write_note_empty_content _ _ _ _ _ "   " (by decide) rfl (by decide)

/-- C10: with valid configuration, a JSON request whose `content` field is
present but not a string hits the generic exception handler (Python `.strip()`
raises `AttributeError` on a non-string), so the handler answers HTTP 500 with
the generic message — not HTTP 400 — and makes no outbound call. -/
theorem write_note_nonstring_content (notionToken notionPageIdEnv : Option String)
    (outcome : CallOutcome)
    (hvalid : (validate_notion_config notionToken (PAGE_ID notionPageIdEnv)).1 = true) :
    write_note notionToken notionPageIdEnv true .nonStr outcome =
      (.json 500 "error" "An unexpected error occurred", none) := by
  simp [write_note, hvalid, get_content, unexpectedErrorResp]

/-- Witness for `write_note_nonstring_content` at a concrete configuration. -/
theorem write_note_nonstring_content_witness :
    write_note (some "tok") (some "2020b70967ed803ba28fdc5ed49984a0") true .nonStr
      (.response 200 "") = (.json 500 "error" "An unexpected error occurred", none) :=
  write_note_nonstring_content _ _ _ (by decide)

/-- C9: for a non-200 upstream outcome, the caller-visible result depends only
on the upstream status code (and the rest of the request), never on the
upstream response body: two runs whose upstream responses differ only in body
text produce identical results. -/
theorem upstream_body_not_leaked (notionToken notionPageIdEnv : Option String)
    (isJsonReq : Bool) (cf : ContentField) (status : Nat) (body1 body2 : String)
    (_hstatus : status ≠ 200) :
    write_note notionToken notionPageIdEnv isJsonReq cf (.response status body1) =
      write_note notionToken notionPageIdEnv isJsonReq cf (.response status body2) := by
  cases hb : (validate_notion_config notionToken (PAGE_ID notionPageIdEnv)).1 with
  | false => simp [write_note, hb]
  | true =>
    cases hg : get_content cf with
    | error e => simp [write_note, hb, hg]
    | ok rawContent =>
      by_cases h2 : pyStrip rawContent = ""
      · simp [write_note, hb, hg, h2]
      · cases hf : format_uuid (PAGE_ID notionPageIdEnv) with
        | none => simp [write_note, hb, hg, h2, hf]
        | some blockId => simp [write_note, hb, hg, h2, hf, handleOutcome]

/-- Witness for `upstream_body_not_leaked`: two upstream 404 responses with
different bodies yield the same caller-visible result. -/
theorem upstream_body_not_leaked_witness :
    write_note (some "tok") (some "2020b70967ed803ba28fdc5ed49984a0") true
      (.strVal "hello") (.response 404 "object not found") =
    write_note (some "tok") (some "2020b70967ed803ba28fdc5ed49984a0") true
      (.strVal "hello") (.response 404 "totally different body") :=
  upstream_body_not_leaked _ _ _ _ _ _ _ (by decide)

/-- C2 counterexample: with `NOTION_PAGE_ID` absent from the environment, the
hard-coded default is used, so (credential present) the validator reports valid
and a POST /write with non-empty content succeeds rather than returning 400. -/
theorem pageid_default_counterexample :
    validate_notion_config (some "tok") (PAGE_ID none) = (true, "Configuration valid") ∧
    (write_note (some "tok") none true (.strVal "hi") (.response 200 "")).1 =
      .json 200 "success" "Note written successfully" := by
  constructor
  · decide
  · decide

/-- C2 amended: `PAGE_ID` falls back to a hard-coded default when the
environment variable is absent, so absence alone does not make the system
inoperable; when the page-identifier value is present but empty and the
credential is present, the validator reports invalid naming the page
identifier, and every POST /write request is answered HTTP 400 with that
message and no outbound call. -/
theorem pageid_required_when_empty (notionToken : Option String) (isJsonReq : Bool)
    (cf : ContentField) (outcome : CallOutcome)
    (htok : ¬(notionToken = none ∨ notionToken = some "")) :
    PAGE_ID none = "2020b70967ed803ba28fdc5ed49984a0" ∧
    validate_notion_config notionToken (PAGE_ID (some "")) =
      (false, "NOTION_PAGE_ID environment variable is required") ∧
    write_note notionToken (some "") isJsonReq cf outcome =
      (.json 400 "error" "NOTION_PAGE_ID environment variable is required", none) := by
  refine ⟨rfl, ?_, ?_⟩
  · simp [validate_notion_config, PAGE_ID, htok]
  · simp [write_note, validate_notion_config, PAGE_ID, htok]

/-- Witness for `pageid_required_when_empty` at a concrete credential. -/
theorem pageid_required_when_empty_witness :
    PAGE_ID none = "2020b70967ed803ba28fdc5ed49984a0" ∧
    validate_notion_config (some "tok") (PAGE_ID (some "")) =
      (false, "NOTION_PAGE_ID environment variable is required") ∧
    write_note (some "tok") (some "") true (.strVal "hi") .timeout =
      (.json 400 "error" "NOTION_PAGE_ID environment variable is required", none) :=
  pageid_required_when_empty (some "tok") true (.strVal "hi") .timeout (by decide)

/-- C1 counterexample: a form (non-JSON) POST /write with a missing credential
— a failure — is answered with a JSON 400 body, not a redirect with a flash
message. -/
theorem form_flash_counterexample :
    (write_note none (some "2020b70967ed803ba28fdc5ed49984a0") false
      (.strVal "hello") .timeout).1 =
      .json 400 "error" "NOTION_TOKEN environment variable is required" ∧
    ((write_note none (some "2020b70967ed803ba28fdc5ed49984a0") false
      (.strVal "hello") .timeout).1).isRedirect = false := by
  constructor
  · decide
  · decide

/-- C1 amended: for form (non-JSON) POST /write requests, the three pre-call
failures (invalid configuration, empty content, bad identifier) are answered
with JSON 400 bodies regardless of the inbound content type; failures of the
outbound call's outcome are redirects carrying an error flash message; and a
request that declared JSON always receives a JSON body. -/
theorem form_failure_shape (notionToken notionPageIdEnv : Option String)
    (cf : ContentField) (outcome : CallOutcome) :
    ((validate_notion_config notionToken (PAGE_ID notionPageIdEnv)).1 = false →
      (write_note notionToken notionPageIdEnv false cf outcome).1 =
        .json 400 "error" (validate_notion_config notionToken (PAGE_ID notionPageIdEnv)).2) ∧
    (∀ rawContent,
      (validate_notion_config notionToken (PAGE_ID notionPageIdEnv)).1 = true →
      get_content cf = .ok rawContent → pyStrip rawContent = "" →
      (write_note notionToken notionPageIdEnv false cf outcome).1 =
        .json 400 "error" "Content cannot be empty") ∧
    (∀ rawContent,
      (validate_notion_config notionToken (PAGE_ID notionPageIdEnv)).1 = true →
      get_content cf = .ok rawContent → pyStrip rawContent ≠ "" →
      format_uuid (PAGE_ID notionPageIdEnv) = none →
      (write_note notionToken notionPageIdEnv false cf outcome).1 =
        .json 400 "error" "Invalid PAGE_ID format") ∧
    ((write_note notionToken notionPageIdEnv false cf outcome).2 ≠ none →
      outcome.isFailure = true →
      ∃ msg, (write_note notionToken notionPageIdEnv false cf outcome).1 =
        .redirect "error" msg) ∧
    (∀ outcome2 : CallOutcome, ∃ c st msg,
      (write_note notionToken notionPageIdEnv true cf outcome2).1 = .json c st msg) := by
  refine ⟨fun hb => by simp [write_note, hb], fun raw hb hg h2 => by simp [write_note, hb, hg, h2],
    fun raw hb hg h2 hf => by simp [write_note, hb, hg, h2, hf], fun hcall hfail => ?_,
    fun outcome2 => ?_⟩
  · cases hb : (validate_notion_config notionToken (PAGE_ID notionPageIdEnv)).1 with
    | false => simp [write_note, hb] at hcall
    | true =>
      cases hg : get_content cf with
      | error e => simp [write_note, hb, hg] at hcall
      | ok rawContent =>
        by_cases h2 : pyStrip rawContent = ""
        · simp [write_note, hb, hg, h2] at hcall
        · cases hf : format_uuid (PAGE_ID notionPageIdEnv) with
          | none => simp [write_note, hb, hg, h2, hf] at hcall
          | some blockId =>
            cases outcome with
            | response status body =>
              have hs : status ≠ 200 := by
                simpa [CallOutcome.isFailure] using hfail
              exact ⟨"Error: " ++ ("Failed to write note to Notion: " ++ toString status),
                by simp [write_note, hb, hg, h2, hf, handleOutcome, hs]⟩
            | timeout =>
              exact ⟨"Error: " ++ "Request timeout - Notion API did not respond in time",
                by simp [write_note, hb, hg, h2, hf, handleOutcome]⟩
            | connectionError =>
              exact ⟨"Error: " ++ "Connection error - Unable to reach Notion API",
                by simp [write_note, hb, hg, h2, hf, handleOutcome]⟩
            | otherError detail =>
              exact ⟨"Error: " ++ "An unexpected error occurred",
                by simp [write_note, hb, hg, h2, hf, handleOutcome, unexpectedErrorResp]⟩
  · cases hb : (validate_notion_config notionToken (PAGE_ID notionPageIdEnv)).1 with
    | false =>
      exact ⟨400, "error", (validate_notion_config notionToken (PAGE_ID notionPageIdEnv)).2,
        by simp [write_note, hb]⟩
    | true =>
      cases hg : get_content cf with
      | error e =>
        exact ⟨500, "error", "An unexpected error occurred",
          by simp [write_note, hb, hg, unexpectedErrorResp]⟩
      | ok rawContent =>
        by_cases h2 : pyStrip rawContent = ""
        · exact ⟨400, "error", "Content cannot be empty", by simp [write_note, hb, hg, h2]⟩
        · cases hf : format_uuid (PAGE_ID notionPageIdEnv) with
          | none =>
            exact ⟨400, "error", "Invalid PAGE_ID format", by simp [write_note, hb, hg, h2, hf]⟩
          | some blockId =>
            cases outcome2 with
            | response status body =>
              by_cases hs : status = 200
              · exact ⟨200, "success", "Note written successfully",
                  by simp [write_note, hb, hg, h2, hf, handleOutcome, hs]⟩
              · exact ⟨status, "error", "Failed to write note to Notion: " ++ toString status,
                  by simp [write_note, hb, hg, h2, hf, handleOutcome, hs]⟩
            | timeout =>
              exact ⟨408, "error", "Request timeout - Notion API did not respond in time",
                by simp [write_note, hb, hg, h2, hf, handleOutcome]⟩
            | connectionError =>
              exact ⟨503, "error", "Connection error - Unable to reach Notion API",
                by simp [write_note, hb, hg, h2, hf, handleOutcome]⟩
            | otherError detail =>
              exact ⟨500, "error", "An unexpected error occurred",
                by simp [write_note, hb, hg, h2, hf, handleOutcome, unexpectedErrorResp]⟩

/-- Witness for `form_failure_shape`: at a concrete form request with a missing
credential, the first conjunct yields the JSON 400 configuration response. -/
theorem form_failure_shape_witness :
    (write_note none (some "2020b70967ed803ba28fdc5ed49984a0") false
      (.strVal "hello") .timeout).1 =
      .json 400 "error"
        (validate_notion_config none (PAGE_ID (some "2020b70967ed803ba28fdc5ed49984a0"))).2 :=
  (form_failure_shape none (some "2020b70967ed803ba28fdc5ed49984a0")
    (.strVal "hello") .timeout).1 (by decide)

/-- C4: for every request that reaches the outbound call, the call's outcome is
mapped to the caller-visible response as: upstream 200 → success (200 JSON or
success flash); upstream status ≠ 200 → that same status (JSON) or an error
flash, the message naming the numeric status; timeout → 408 with the timeout
message; connection failure → 503 with the connectivity message; any other
failure → 500 with the generic message. -/
theorem outcome_mapping (notionToken notionPageIdEnv : Option String) (isJsonReq : Bool)
    (cf : ContentField) (rawContent : String)
    (hvalid : (validate_notion_config notionToken (PAGE_ID notionPageIdEnv)).1 = true)
    (hget : get_content cf = .ok rawContent)
    (hcontent : pyStrip rawContent ≠ "")
    (hfmt : (format_uuid (PAGE_ID notionPageIdEnv)).isSome = true) :
    (∀ body, (write_note notionToken notionPageIdEnv isJsonReq cf (.response 200 body)).1 =
      if isJsonReq then .json 200 "success" "Note written successfully"
      else .redirect "success" "Note written successfully!") ∧
    (∀ status body, status ≠ 200 →
      (write_note notionToken notionPageIdEnv isJsonReq cf (.response status body)).1 =
        if isJsonReq then
          .json status "error" ("Failed to write note to Notion: " ++ toString status)
        else
          .redirect "error"
            ("Error: " ++ ("Failed to write note to Notion: " ++ toString status))) ∧
    ((write_note notionToken notionPageIdEnv isJsonReq cf .timeout).1 =
      if isJsonReq then .json 408 "error" "Request timeout - Notion API did not respond in time"
      else .redirect "error"
        ("Error: " ++ "Request timeout - Notion API did not respond in time")) ∧
    ((write_note notionToken notionPageIdEnv isJsonReq cf .connectionError).1 =
      if isJsonReq then .json 503 "error" "Connection error - Unable to reach Notion API"
      else .redirect "error" ("Error: " ++ "Connection error - Unable to reach Notion API")) ∧
    (∀ detail, (write_note notionToken notionPageIdEnv isJsonReq cf (.otherError detail)).1 =
      if isJsonReq then .json 500 "error" "An unexpected error occurred"
      else .redirect "error" ("Error: " ++ "An unexpected error occurred")) := by
  obtain ⟨blockId, hf⟩ := Option.isSome_iff_exists.mp hfmt
  refine ⟨fun body => ?_, fun status body hs => ?_, ?_, ?_, fun detail => ?_⟩ <;>
    simp [write_note, hvalid, hget, hcontent, hf, handleOutcome, unexpectedErrorResp, *]

/-- Witness for `outcome_mapping`: a JSON request whose upstream response is a
404 is answered with HTTP 404 and a message naming 404. -/
theorem outcome_mapping_witness :
    (write_note (some "tok") (some "2020b70967ed803ba28fdc5ed49984a0") true
      (.strVal "hello") (.response 404 "not found")).1 =
      .json 404 "error" ("Failed to write note to Notion: " ++ toString 404) := by
  have h := (outcome_mapping (some "tok") (some "2020b70967ed803ba28fdc5ed49984a0") true
    (.strVal "hello") "hello" (by decide) rfl (by decide) (by decide)).2.1 404 "not found"
    (by decide)
  simpa using h

/-- C7: for every request with valid configuration, non-empty trimmed content
and a 32-character configured page identifier, the handler issues exactly one
outbound call: a PATCH to the block-children endpoint for the hyphenated
identifier, with a bearer Authorization header, the fixed API version
`2022-06-28`, a 10-second timeout, and a body of exactly one paragraph block
whose single rich-text run equals the trimmed note. -/
theorem outbound_request_spec (notionToken notionPageIdEnv : Option String)
    (isJsonReq : Bool) (cf : ContentField) (rawContent : String) (outcome : CallOutcome)
    (hvalid : (validate_notion_config notionToken (PAGE_ID notionPageIdEnv)).1 = true)
    (hget : get_content cf = .ok rawContent)
    (hcontent : pyStrip rawContent ≠ "")
    (hlen : (PAGE_ID notionPageIdEnv).length = 32) :
    ∃ blockId, format_uuid (PAGE_ID notionPageIdEnv) = some blockId ∧
      (write_note notionToken notionPageIdEnv isJsonReq cf outcome).2 =
        some ⟨"PATCH", "https://api.notion.com/v1/blocks/" ++ blockId ++ "/children",
          "Bearer " ++ notionToken.getD "", "application/json", "2022-06-28",
          ⟨[⟨"block", "paragraph", ⟨[⟨"text", ⟨pyStrip rawContent⟩⟩]⟩⟩]⟩, 10⟩ := by
  have hf : format_uuid (PAGE_ID notionPageIdEnv) =
      some (pySlice (PAGE_ID notionPageIdEnv) 0 8 ++ "-" ++
        pySlice (PAGE_ID notionPageIdEnv) 8 12 ++ "-" ++
        pySlice (PAGE_ID notionPageIdEnv) 12 16 ++ "-" ++
        pySlice (PAGE_ID notionPageIdEnv) 16 20 ++ "-" ++
        pySliceFrom (PAGE_ID notionPageIdEnv) 20) := by
    simp [format_uuid, hlen]
  exact ⟨_, hf, by simp [write_note, hvalid, hget, hcontent, hf, NOTION_VERSION]⟩

/-- Witness for `outbound_request_spec`: the concrete outbound request for the
default page identifier and the note `" hello "`. -/
theorem outbound_request_spec_witness :
    ∃ blockId, format_uuid (PAGE_ID none) = some blockId ∧
      (write_note (some "tok") none true (.strVal " hello ") (.response 200 "")).2 =
        some ⟨"PATCH", "https://api.notion.com/v1/blocks/" ++ blockId ++ "/children",
          "Bearer " ++ (some "tok" : Option String).getD "", "application/json", "2022-06-28",
          ⟨[⟨"block", "paragraph", ⟨[⟨"text", ⟨pyStrip " hello "⟩⟩]⟩⟩]⟩, 10⟩ :=
  outbound_request_spec (some "tok") none true (.strVal " hello ") " hello "
    (.response 200 "") (by decide) rfl (by decide) (by decide)

/-- The character data of a string concatenation. -/
theorem data_append (a b : String) : (a ++ b).data = a.data ++ b.data := rfl

/-- The character data of a constructed string. -/
theorem data_mk (l : List Char) : (String.mk l).data = l := rfl

/-- The character data of the hyphen literal. -/
theorem dash_data : "-".data = ['-'] := rfl

/-- C3: for every string of length exactly 32, `format_uuid` returns a
36-character string with hyphens at positions 8, 13, 18 and 23, every one of
the 32 original characters preserved at its shifted position (hence in order,
unchanged, with no character-set restriction); for every string whose length
is not 32, it returns `none`. -/
theorem format_uuid_spec (s : String) :
    (s.length ≠ 32 → format_uuid s = none) ∧
    (s.length = 32 → ∃ t, format_uuid s = some t ∧ t.length = 36 ∧
      t.data[8]? = some '-' ∧ t.data[13]? = some '-' ∧
      t.data[18]? = some '-' ∧ t.data[23]? = some '-' ∧
      ∀ i, i < 32 → t.data[hyphenPos i]? = s.data[i]?) := by
  refine ⟨fun h => by simp [format_uuid, h], fun h => ?_⟩
  have hl : s.data.length = 32 := h
  refine ⟨pySlice s 0 8 ++ "-" ++ pySlice s 8 12 ++ "-" ++ pySlice s 12 16 ++ "-" ++
    pySlice s 16 20 ++ "-" ++ pySliceFrom s 20, by simp [format_uuid, h], ?_⟩
  have htd : (pySlice s 0 8 ++ "-" ++ pySlice s 8 12 ++ "-" ++ pySlice s 12 16 ++ "-" ++
      pySlice s 16 20 ++ "-" ++ pySliceFrom s 20).data =
      s.data.take 8 ++ '-' :: ((s.data.take 12).drop 8 ++ '-' :: ((s.data.take 16).drop 12 ++
        '-' :: ((s.data.take 20).drop 16 ++ '-' :: s.data.drop 20))) := by
    simp [pySlice, pySliceFrom, data_append, data_mk, dash_data, List.append_assoc]
  have lenA : (s.data.take 8).length = 8 := by
    rw [List.length_take, hl]; omega
  have lenB : ((s.data.take 12).drop 8).length = 4 := by
    rw [List.length_drop, List.length_take, hl]; omega
  have lenC : ((s.data.take 16).drop 12).length = 4 := by
    rw [List.length_drop, List.length_take, hl]; omega
  have lenD : ((s.data.take 20).drop 16).length = 4 := by
    rw [List.length_drop, List.length_take, hl]; omega
  have lenE : (s.data.drop 20).length = 12 := by
    rw [List.length_drop, hl]
  refine ⟨?_, ?_, ?_, ?_, ?_, ?_⟩
  · show (_ : String).length = 36
    rw [show (∀ u : String, u.length = u.data.length) from fun _ => rfl, htd]
    simp [lenA, lenB, lenC, lenD, lenE]
  · rw [htd, List.getElem?_append_right (by rw [lenA]; try omega), lenA,
      show (8:Nat) - 8 = 0 by norm_num, List.getElem?_cons_zero]
  · rw [htd, List.getElem?_append_right (by rw [lenA]; try omega), lenA,
      show (13:Nat) - 8 = 4 + 1 by norm_num, List.getElem?_cons_succ,
      List.getElem?_append_right (by rw [lenB]; try omega), lenB,
      show (4:Nat) - 4 = 0 by norm_num, List.getElem?_cons_zero]
  · rw [htd, List.getElem?_append_right (by rw [lenA]; try omega), lenA,
      show (18:Nat) - 8 = 9 + 1 by norm_num, List.getElem?_cons_succ,
      List.getElem?_append_right (by rw [lenB]; try omega), lenB,
      show (9:Nat) - 4 = 4 + 1 by norm_num, List.getElem?_cons_succ,
      List.getElem?_append_right (by rw [lenC]; try omega), lenC,
      show (4:Nat) - 4 = 0 by norm_num, List.getElem?_cons_zero]
  · rw [htd, List.getElem?_append_right (by rw [lenA]; try omega), lenA,
      show (23:Nat) - 8 = 14 + 1 by norm_num, List.getElem?_cons_succ,
      List.getElem?_append_right (by rw [lenB]; try omega), lenB,
      show (14:Nat) - 4 = 9 + 1 by norm_num, List.getElem?_cons_succ,
      List.getElem?_append_right (by rw [lenC]; try omega), lenC,
      show (9:Nat) - 4 = 4 + 1 by norm_num, List.getElem?_cons_succ,
      List.getElem?_append_right (by rw [lenD]; try omega), lenD,
      show (4:Nat) - 4 = 0 by norm_num, List.getElem?_cons_zero]
  · intro i hi
    rw [htd]
    rcases Nat.lt_or_ge i 8 with h8 | h8
    · have hp : hyphenPos i = i := by unfold hyphenPos; rw [if_pos h8]
      rw [hp, List.getElem?_append_left (by rw [lenA]; try omega),
        List.getElem?_take_of_lt h8]
    · rcases Nat.lt_or_ge i 12 with h12 | h12
      · have hp : hyphenPos i = i + 1 := by unfold hyphenPos; split_ifs <;> omega
        rw [hp, List.getElem?_append_right (by rw [lenA]; try omega), lenA,
          show i + 1 - 8 = (i - 8) + 1 by omega, List.getElem?_cons_succ,
          List.getElem?_append_left (by rw [lenB]; try omega), List.getElem?_drop,
          show 8 + (i - 8) = i by omega, List.getElem?_take_of_lt h12]
      · rcases Nat.lt_or_ge i 16 with h16 | h16
        · have hp : hyphenPos i = i + 2 := by unfold hyphenPos; split_ifs <;> omega
          rw [hp, List.getElem?_append_right (by rw [lenA]; try omega), lenA,
            show i + 2 - 8 = (i - 7) + 1 by omega, List.getElem?_cons_succ,
            List.getElem?_append_right (by rw [lenB]; try omega), lenB,
            show i - 7 - 4 = (i - 12) + 1 by omega, List.getElem?_cons_succ,
            List.getElem?_append_left (by rw [lenC]; try omega), List.getElem?_drop,
            show 12 + (i - 12) = i by omega, List.getElem?_take_of_lt h16]
        · rcases Nat.lt_or_ge i 20 with h20 | h20
          · have hp : hyphenPos i = i + 3 := by unfold hyphenPos; split_ifs <;> omega
            rw [hp, List.getElem?_append_right (by rw [lenA]; try omega), lenA,
              show i + 3 - 8 = (i - 6) + 1 by omega, List.getElem?_cons_succ,
              List.getElem?_append_right (by rw [lenB]; try omega), lenB,
              show i - 6 - 4 = (i - 11) + 1 by omega, List.getElem?_cons_succ,
              List.getElem?_append_right (by rw [lenC]; try omega), lenC,
              show i - 11 - 4 = (i - 16) + 1 by omega, List.getElem?_cons_succ,
              List.getElem?_append_left (by rw [lenD]; try omega), List.getElem?_drop,
              show 16 + (i - 16) = i by omega, List.getElem?_take_of_lt h20]
          · have hp : hyphenPos i = i + 4 := by unfold hyphenPos; split_ifs <;> omega
            rw [hp, List.getElem?_append_right (by rw [lenA]; try omega), lenA,
              show i + 4 - 8 = (i - 5) + 1 by omega, List.getElem?_cons_succ,
              List.getElem?_append_right (by rw [lenB]; try omega), lenB,
              show i - 5 - 4 = (i - 10) + 1 by omega, List.getElem?_cons_succ,
              List.getElem?_append_right (by rw [lenC]; try omega), lenC,
              show i - 10 - 4 = (i - 15) + 1 by omega, List.getElem?_cons_succ,
              List.getElem?_append_right (by rw [lenD]; try omega), lenD,
              show i - 15 - 4 = (i - 20) + 1 by omega, List.getElem?_cons_succ,
              List.getElem?_drop, show 20 + (i - 20) = i by omega]


/-- Witness for `format_uuid_spec`: a 3-character string is rejected, and the
default page identifier is formatted with all positional properties. -/
theorem format_uuid_spec_witness :
    format_uuid "abc" = none ∧
    (∃ t, format_uuid "2020b70967ed803ba28fdc5ed49984a0" = some t ∧ t.length = 36 ∧
      t.data[8]? = some '-' ∧ t.data[13]? = some '-' ∧
      t.data[18]? = some '-' ∧ t.data[23]? = some '-' ∧
      ∀ i, i < 32 →
        t.data[hyphenPos i]? = "2020b70967ed803ba28fdc5ed49984a0".data[i]?) :=
  ⟨(format_uuid_spec "abc").1 (by decide),
   (format_uuid_spec "2020b70967ed803ba28fdc5ed49984a0").2 (by decide)⟩

end NotionAgent
